import Mathlib

/-!
Shallow embedding of `src/policytool/cli.py` (cobra-policytool command-line layer).

The three click commands `tags_to_atlas`, `rules_to_ranger_cmd` and `audit` are
modelled as pure functions from their inputs (CLI options, config, a predicate
giving which files exist, and oracles for the results of file reads and remote
calls) to a trace of observable events plus an exit status.  The helper modules
`tagsync` and `rangersync` are imported by cli.py but are not under `src/`;
the few helpers the claims need are modelled from the spec and marked as such.
-/

namespace Policytool

/-- One source record, as produced by `tagsync.read_file` plus grouping: an
entity identity (schema, table, optional column) and its set of tags. -/
structure Record where
  schema : String
  table : String
  column : Option String
  tags : Finset String
deriving DecidableEq

/-- The per-environment configuration section, `JSONPropertiesFile(config).get(environment)`:
the keys cli.py reads from it.  `retries` is absent when the config omits it
(`conf.get('retries', 1)` supplies the default); `vars` models the config key
named variables: the ordered list of name-value pairs. -/
structure Config where
  atlas_api_url : String
  ranger_api_url : String
  retries : Option Nat
  vars : List (String × String)
deriving DecidableEq

/-- cli.py line 18: `SLEEP_ON_RETRY_SECONDS = 60`. -/
def SLEEP_ON_RETRY_SECONDS : Nat := 60

/-- cli.py `_missing_files`: the sub-list of `files` for which `os.path.isfile`
is false, in order. -/
def missing_files (isfile : String → Bool) (files : List String) : List String :=
  files.filter (fun f => !isfile f)

/-- The string printed by cli.py line 53 (and its copies at lines 91 and 139):
`print("Following files are missing: " ", ".join(missing_files))`.  The two
adjacent Python string literals concatenate, so the whole text acts as the
join separator. -/
def missing_files_message (missing : List String) : String :=
  String.intercalate "Following files are missing: , " missing

/-- One structured report line printed by the `audit` command. -/
inductive ReportItem
  | tagsMissingInAtlas (tags : Finset String)
  | tablesOnlyAtlas (tables : Finset String)
  | tablesOnlySrc (tables : Finset String)
  | columnsOnlySrc (columns : Finset String)
  | tableTagsOnlySrc (table : String) (tags : Finset String)
  | tableTagsOnlyAtlas (table : String) (tags : Finset String)
  | columnTagsOnlySrc (column : String) (tags : Finset String)
  | columnTagsOnlyAtlas (column : String) (tags : Finset String)
deriving DecidableEq

/-- Observable events of one command invocation, in program order. -/
inductive Event
  | printLine (s : String)
  | mkAtlasClient (url : String)
  | mkSyncClient (maxRetries : Nat) (sleepSeconds : Nat)
  | mkSyncClientDefault
  | syncTableTags (records : List Record)
  | syncColumnTags (records : List Record)
  | printWorklog
  | report (item : ReportItem)
  | raiseClick (msg : String)
  | mkRangerClient (url : String)
  | mkRangerSync (verbose : Nat) (dryrun : Bool)
  | syncPolicies (ownedNames : List String) (policies : List String)
deriving DecidableEq

/-- How the process ends: normal return (exit code 0) or a `ClickException`
carrying a message (click prints it and exits non-zero). -/
inductive ExitStatus
  | ok
  | clickError (msg : String)
deriving DecidableEq

/-- Modelled from the spec: `tagsync.add_environment` is not under `src/`.
Spec 4.1 `withEnvironment(records, env)` stamps every record with the run's
environment tag, added to each record's tag set (not a separate field). -/
def add_environment (records : List Record) (environment : String) : List Record :=
  records.map (fun r => { r with tags := insert environment r.tags })

/-- Modelled from the spec: `tagsync.tags_from_src` is not under `src/`.
Spec 4.3 calls it the source tag universe: all tags declared by the records. -/
def tags_from_src (records : List Record) : Finset String :=
  records.foldr (fun r acc => r.tags ∪ acc) ∅

/-- The entity id `schema.table` used as key for tables. -/
def table_id (r : Record) : String := r.schema ++ "." ++ r.table

/-- The entity id `schema.table.column` used as key for columns. -/
def column_id (r : Record) : String := table_id r ++ "." ++ r.column.getD ""

/-- Modelled from the spec: `tagsync.tables_from_src` is not under `src/`;
the table entity ids declared by the records. -/
def tables_from_src (records : List Record) : List String := records.map table_id

/-- Modelled from the spec: `tagsync.columns_from_src` is not under `src/`;
the column entity ids declared by the records. -/
def columns_from_src (records : List Record) : List String := records.map column_id

/-- Modelled from the spec: `tagsync.schemas_from_src` is not under `src/`. -/
def schemas_from_src (records : List Record) : List String := records.map (fun r => r.schema)

/-- First-match association lookup, for the catalog snapshots
(`full_tables_atlas` and `full_columns_atlas` are mappings entity id to entity). -/
def assoc_lookup (m : List (String × Finset String)) (k : String) : Option (Finset String) :=
  match m with
  | [] => none
  | (k0, v) :: rest => if k0 = k then some v else assoc_lookup rest k

/-- Modelled from the spec: `tagsync.diff_table_tags` is not under `src/`.
Spec 4.3 item 4: for every entity present in both source and catalog, the pair
(source-only tags, catalog-only tags). -/
def diff_table_tags (src : List Record) (atlas : List (String × Finset String)) :
    List (String × Finset String × Finset String) :=
  src.filterMap (fun r =>
    match assoc_lookup atlas (table_id r) with
    | some atags => some (table_id r, r.tags \ atags, atags \ r.tags)
    | none => none)

/-- Modelled from the spec: `tagsync.diff_column_tags` is not under `src/`.
Spec 4.3 item 5: identical computation to the table tag diff, per column. -/
def diff_column_tags (src : List Record) (atlas : List (String × Finset String)) :
    List (String × Finset String × Finset String) :=
  src.filterMap (fun r =>
    match assoc_lookup atlas (column_id r) with
    | some atags => some (column_id r, r.tags \ atags, atags \ r.tags)
    | none => none)

/-- Concatenation of the images of `f`, in order. -/
def concat_map (f : α → List β) : List α → List β
  | [] => []
  | x :: xs => f x ++ concat_map f xs

/-- The report lines of one tag-diff loop in `audit` (cli.py lines 185-190 and
194-199): one line for source-only tags and one for catalog-only tags, each
only when non-empty. -/
def tag_diff_items (mkSrc mkAtlas : String → Finset String → ReportItem)
    (diffs : List (String × Finset String × Finset String)) : List ReportItem :=
  concat_map (fun d =>
    (if d.2.1 = ∅ then [] else [mkSrc d.1 d.2.1]) ++
    (if d.2.2 = ∅ then [] else [mkAtlas d.1 d.2.2])) diffs

/-- The body of the `audit` command after environment stamping (cli.py lines
151-199), as the ordered list of report lines it prints, computed from the
stamped source data and the three catalog snapshots. -/
def audit_reports (src_data_table src_data_column : List Record)
    (atlas_tags : Finset String)
    (full_tables_atlas full_columns_atlas : List (String × Finset String)) :
    List ReportItem :=
  let table_tags := tags_from_src src_data_table
  let column_tags := tags_from_src src_data_column
  let diff_tags := (table_tags ∪ column_tags) \ atlas_tags
  let tables_atlas := (full_tables_atlas.map Prod.fst).toFinset
  let tables_src := (tables_from_src src_data_table).toFinset
  let tables_only_atlas := tables_atlas \ tables_src
  let tables_only_src := tables_src \ tables_atlas
  let columns_atlas := (full_columns_atlas.map Prod.fst).toFinset
  let columns_src := (columns_from_src src_data_column).toFinset
  let column_only_src := columns_src \ columns_atlas
  (if diff_tags = ∅ then [] else [ReportItem.tagsMissingInAtlas diff_tags]) ++
  (if tables_only_atlas = ∅ then [] else [ReportItem.tablesOnlyAtlas tables_only_atlas]) ++
  (if tables_only_src = ∅ then [] else [ReportItem.tablesOnlySrc tables_only_src]) ++
  (if column_only_src = ∅ then [] else [ReportItem.columnsOnlySrc column_only_src]) ++
  tag_diff_items ReportItem.tableTagsOnlySrc ReportItem.tableTagsOnlyAtlas
    (diff_table_tags src_data_table full_tables_atlas) ++
  tag_diff_items ReportItem.columnTagsOnlySrc ReportItem.columnTagsOnlyAtlas
    (diff_column_tags src_data_column full_columns_atlas)

/-- Oracles for the fallible steps of `tags_to_atlas`: the two `read_file`
calls (an `error` is an `IOError` message) and the two `Sync` push calls
(an `error` is the message of the `tagsync.SyncError` or `IOError` that the
call ultimately raised). -/
structure SyncWorld where
  tableRead : Except String (List Record)
  tableSync : Except String Unit
  columnRead : Except String (List Record)
  columnSync : Except String Unit

/-- Oracles for `audit`: the two `read_file` calls and the three read-only
catalog snapshots (`tags_from_atlas`, `tables_from_atlas`, `columns_from_atlas`). -/
structure AuditWorld where
  tableRead : Except String (List Record)
  columnRead : Except String (List Record)
  atlas_tags : Finset String
  full_tables_atlas : List (String × Finset String)
  full_columns_atlas : List (String × Finset String)

/-- Boolean success test for an `Except`. -/
def ex_ok : Except String α → Bool
  | .ok _ => true
  | .error _ => false

/-- The `ClickException` message built at cli.py line 74. -/
def click_msg (m : String) : String := m ++ " Tag sync not complete, fix errors and re-run."

/-- The body of `tags_to_atlas` after the missing-file check (cli.py lines
57-74): build the Atlas client and the `tagsync.Sync` client (retry budget
`retry*conf.get('retries', 1)`, sleep `SLEEP_ON_RETRY_SECONDS`), sync table
tags then column tags on the environment-stamped data, and turn a `SyncError`
or `IOError` into one `ClickException`. -/
def tags_to_atlas_run (environment : String) (retry verbose : Nat)
    (conf : Config) (w : SyncWorld) : List Event × ExitStatus :=
  let pre := [Event.mkAtlasClient conf.atlas_api_url,
              Event.mkSyncClient (retry * conf.retries.getD 1) SLEEP_ON_RETRY_SECONDS]
  let v1 := if verbose > 0 then [Event.printLine "Syncing tags for tables."] else []
  match w.tableRead with
  | .error m => (pre ++ v1 ++ [Event.raiseClick (click_msg m)], .clickError (click_msg m))
  | .ok src_data_table =>
    let e1 := [Event.syncTableTags (add_environment src_data_table environment)]
    match w.tableSync with
    | .error m => (pre ++ v1 ++ e1 ++ [Event.raiseClick (click_msg m)], .clickError (click_msg m))
    | .ok _ =>
      let v2 := if verbose > 0 then
        [Event.printWorklog, Event.printLine "Syncing tags for columns."] else []
      match w.columnRead with
      | .error m =>
        (pre ++ v1 ++ e1 ++ v2 ++ [Event.raiseClick (click_msg m)], .clickError (click_msg m))
      | .ok src_data_column =>
        let e2 := [Event.syncColumnTags (add_environment src_data_column environment)]
        match w.columnSync with
        | .error m =>
          (pre ++ v1 ++ e1 ++ v2 ++ e2 ++ [Event.raiseClick (click_msg m)],
           .clickError (click_msg m))
        | .ok _ =>
          let v3 := if verbose > 0 then [Event.printWorklog] else []
          (pre ++ v1 ++ e1 ++ v2 ++ e2 ++ v3, .ok)

/-- cli.py `tags_to_atlas` (lines 47-74): check the two source files exist,
otherwise print and return 0; then run the sync body. -/
def tags_to_atlas (isfile : String → Bool) (srcdir environment : String)
    (retry verbose : Nat) (conf : Config) (w : SyncWorld) : List Event × ExitStatus :=
  let table_file := srcdir ++ "/table_tags.csv"
  let column_file := srcdir ++ "/column_tags.csv"
  let missing := missing_files isfile [table_file, column_file]
  if missing.length ≠ 0 then
    ([Event.printLine (missing_files_message missing),
      Event.printLine "Will not run, exiting!"], .ok)
  else
    tags_to_atlas_run environment retry verbose conf w

/-- The body of `audit` after the missing-file check (cli.py lines 143-202):
build the clients, stamp the environment onto both source files' records,
compute and print the reports; only an `IOError` becomes a `ClickException`
(with the bare message, cli.py line 202). -/
def audit_run (environment : String) (conf : Config) (w : AuditWorld) :
    List Event × ExitStatus :=
  let pre := [Event.mkAtlasClient conf.atlas_api_url, Event.mkSyncClientDefault]
  match w.tableRead with
  | .error m => (pre ++ [Event.raiseClick m], .clickError m)
  | .ok tbl =>
    match w.columnRead with
    | .error m => (pre ++ [Event.raiseClick m], .clickError m)
    | .ok col =>
      let src_data_table := add_environment tbl environment
      let src_data_column := add_environment col environment
      (pre ++ (audit_reports src_data_table src_data_column w.atlas_tags
                w.full_tables_atlas w.full_columns_atlas).map Event.report, .ok)

/-- cli.py `audit` (lines 133-202): check the two source files exist,
otherwise print and return 0; then run the audit body. -/
def audit (isfile : String → Bool) (srcdir environment : String)
    (conf : Config) (w : AuditWorld) : List Event × ExitStatus :=
  let table_file := srcdir ++ "/table_tags.csv"
  let column_file := srcdir ++ "/column_tags.csv"
  let missing := missing_files isfile [table_file, column_file]
  if missing.length ≠ 0 then
    ([Event.printLine (missing_files_message missing),
      Event.printLine "Will not run, exiting!"], .ok)
  else
    audit_run environment conf w

/-- One value stored in the `context_dict` of `rules_to_ranger_cmd`. -/
inductive CtxVal
  | str (s : String)
  | records (rs : List Record)
  | tableColumns (m : List (String × List Record))
deriving DecidableEq

/-- Append `c` to the list stored at key `k`, creating the key at the end when
absent: the `defaultdict(list)` / `append` of cli.py lines 104-106. -/
def append_to_key (m : List (String × List Record)) (k : String) (c : Record) :
    List (String × List Record) :=
  match m with
  | [] => [(k, [c])]
  | (k0, v) :: rest =>
    if k0 = k then (k0, v ++ [c]) :: rest else (k0, v) :: append_to_key rest k c

/-- cli.py lines 104-106: group the column records by `"{schema}.{table}"`. -/
def table_columns_of (columns : List Record) : List (String × List Record) :=
  columns.foldl (fun m c => append_to_key m (c.schema ++ "." ++ c.table) c) []

/-- A Python dict modelled as its sequence of key assignments; lookup returns
the value of the last assignment to the key, as dict assignment overwrites. -/
def dict_lookup (writes : List (String × CtxVal)) (k : String) : Option CtxVal :=
  writes.foldl (fun acc kv => if kv.1 = k then some kv.2 else acc) none

/-- cli.py lines 108-117: the `context_dict` assignment sequence — first the
four run-derived keys of the dict literal, then one assignment
`context_dict[var['name']] = var['value']` per config variable, in order. -/
def context_writes (project_name environment : String)
    (tables columns : List Record) (conf : Config) : List (String × CtxVal) :=
  [("project_name", CtxVal.str project_name),
   ("environment", CtxVal.str environment),
   ("tables", CtxVal.records tables),
   ("table_columns", CtxVal.tableColumns (table_columns_of columns))] ++
  conf.vars.map (fun v => (v.1, CtxVal.str v.2))

/-- The body of `rules_to_ranger_cmd` after the missing-file check (cli.py
lines 95-125): build the Ranger client and syncer, build the context, expand
the policy commands (`rangersync.apply_commands`, not under `src/`, passed in
as a parameter) and sync the policies under the two owned name spaces.
`tables`, `columns` and `policy_commands` are the parsed contents of the three
source files. -/
def rules_to_ranger_run (project_name environment : String)
    (conf : Config) (verbose : Nat) (dryrun : Bool)
    (tables columns : List Record) (policy_commands : List String)
    (apply_commands : List String → List (String × CtxVal) → List String) :
    List Event × ExitStatus :=
  let context := context_writes project_name environment tables columns conf
  let policies := apply_commands policy_commands context
  ([Event.mkRangerClient conf.ranger_api_url,
    Event.mkRangerSync verbose dryrun,
    Event.syncPolicies [project_name ++ "_" ++ environment, "load_etl_"] policies], .ok)

/-- cli.py `rules_to_ranger_cmd` (lines 84-125): check the three source files
exist, otherwise print and return 0; then run the body. -/
def rules_to_ranger_cmd (isfile : String → Bool) (srcdir project_name environment : String)
    (conf : Config) (verbose : Nat) (dryrun : Bool)
    (tables columns : List Record) (policy_commands : List String)
    (apply_commands : List String → List (String × CtxVal) → List String) :
    List Event × ExitStatus :=
  let table_file := srcdir ++ "/table_tags.csv"
  let column_file := srcdir ++ "/column_tags.csv"
  let policy_file := srcdir ++ "/ranger_policies.json"
  let missing := missing_files isfile [table_file, column_file, policy_file]
  if missing.length ≠ 0 then
    ([Event.printLine (missing_files_message missing),
      Event.printLine "Will not run, exiting!"], .ok)
  else
    rules_to_ranger_run project_name environment conf verbose dryrun
      tables columns policy_commands apply_commands

/-- Modelled from the spec: `tagsync.Sync`'s retry loop is not under `src/`.
Spec 4.4 RetryingSyncer: attempt the push once; on `SyncError` retry up to
`maxRetries` additional times; `maxRetries` of 0 means try exactly once.
This is the number of attempts made when every attempt fails. -/
def attempts_when_all_fail (maxRetries : Nat) : Nat := maxRetries + 1

/-- The `(maxRetries, sleepSeconds)` arguments of each `tagsync.Sync`
construction in a trace. -/
def sync_client_params (tr : List Event) : List (Nat × Nat) :=
  tr.filterMap (fun e => match e with
    | .mkSyncClient r s => some (r, s)
    | _ => none)

/-- The sync calls of a trace, `0` for a table-scope call and `1` for a
column-scope call, in trace order. -/
def scope_marks (tr : List Event) : List Nat :=
  tr.filterMap (fun e => match e with
    | .syncTableTags _ => some 0
    | .syncColumnTags _ => some 1
    | _ => none)

/-- The report items of a trace, in order. -/
def reports_of (tr : List Event) : List ReportItem :=
  tr.filterMap (fun e => match e with
    | .report r => some r
    | _ => none)

/-- The `sync_policies` calls of a trace: owned-name list and policy list. -/
def sync_policy_calls (tr : List Event) : List (List String × List String) :=
  tr.filterMap (fun e => match e with
    | .syncPolicies a b => some (a, b)
    | _ => none)

/-- Events that construct a remote client or talk to a remote service. -/
def is_remote_event : Event → Bool
  | .printLine _ => false
  | .printWorklog => false
  | .report _ => false
  | .raiseClick _ => false
  | _ => true

/-- The value of the last `{name, value}` pair for `k` in the config variable
list, if any. -/
def last_value (vars : List (String × String)) (k : String) : Option String :=
  vars.foldl (fun acc kv => if kv.1 = k then some kv.2 else acc) none

/-- A file system in which every path exists; used for concrete runs. -/
def all_files : String → Bool := fun _ => true

/-- A concrete config for concrete runs. -/
def conf0 : Config :=
  { atlas_api_url := "a", ranger_api_url := "r", retries := some 3, vars := [("x", "1")] }

/-- A concrete source record for concrete runs. -/
def rec0 : Record := { schema := "s", table := "t", column := none, tags := {"pii"} }

/-- A concrete all-successful oracle world for `tags_to_atlas`. -/
def w0 : SyncWorld :=
  { tableRead := .ok [rec0], tableSync := .ok (), columnRead := .ok [rec0],
    columnSync := .ok () }

lemma mem_add_environment {records : List Record} {env : String} {r : Record}
    (h : r ∈ add_environment records env) : env ∈ r.tags := by
  simp only [add_environment, List.mem_map] at h
  obtain ⟨r0, _, rfl⟩ := h
  exact Finset.mem_insert_self env r0.tags

/-- C1: in every run of `tags_to_atlas` whose source files exist, exactly one
tag syncer is constructed, with retry budget `retry * (configured retries,
default 1)` and the fixed 60-second delay; with the `--retry` flag absent
(`retry = 0`) the budget is 0 and the modelled retry loop makes exactly one
attempt. -/
theorem c1_retry_budget (isfile : String → Bool) (srcdir environment : String)
    (retry verbose : Nat) (conf : Config) (w : SyncWorld)
    (hm : missing_files isfile
      [srcdir ++ "/table_tags.csv", srcdir ++ "/column_tags.csv"] = []) :
    sync_client_params (tags_to_atlas isfile srcdir environment retry verbose conf w).1 =
      [(retry * conf.retries.getD 1, SLEEP_ON_RETRY_SECONDS)] ∧
    SLEEP_ON_RETRY_SECONDS = 60 ∧
    (retry = 0 → retry * conf.retries.getD 1 = 0 ∧ attempts_when_all_fail 0 = 1) := by
  refine ⟨?_, rfl, fun h => ⟨by simp [h], rfl⟩⟩
  obtain ⟨tr, ts, cr, cs⟩ := w
  by_cases hv : verbose > 0 <;>
    cases tr <;> cases ts <;> cases cr <;> cases cs <;>
      simp [tags_to_atlas, tags_to_atlas_run, hm, hv, sync_client_params,
        List.filterMap_append]

/-- Witness for C1 at a concrete run with the retry flag absent. -/
theorem c1_retry_budget_witness :
    sync_client_params (tags_to_atlas all_files "d" "prod" 0 0 conf0 w0).1 = [(0, 60)] ∧
    SLEEP_ON_RETRY_SECONDS = 60 ∧ attempts_when_all_fail 0 = 1 := by
  have h := c1_retry_budget all_files "d" "prod" 0 0 conf0 w0 (by rfl)
  exact ⟨by simpa using h.1, h.2.1, (h.2.2 rfl).2⟩

/-- The first failing step of a `tags_to_atlas` run, in execution order
(table read, table sync, column read, column sync), if any. -/
def first_error (w : SyncWorld) : Option String :=
  match w.tableRead with
  | .error m => some m
  | .ok _ =>
    match w.tableSync with
    | .error m => some m
    | .ok _ =>
      match w.columnRead with
      | .error m => some m
      | .ok _ =>
        match w.columnSync with
        | .error m => some m
        | .ok _ => none

/-- C3: in every run of `tags_to_atlas` whose source files exist, the sync
calls happen in scope order — never a column-scope call without a preceding
table-scope call; a column-scope call occurs only after the table-scope call
returned without error; and whenever the reads and the table sync succeed the
column sync call is made unconditionally (no existence check guards it). -/
theorem c3_tables_before_columns (isfile : String → Bool) (srcdir environment : String)
    (retry verbose : Nat) (conf : Config) (w : SyncWorld)
    (hm : missing_files isfile
      [srcdir ++ "/table_tags.csv", srcdir ++ "/column_tags.csv"] = []) :
    (scope_marks (tags_to_atlas isfile srcdir environment retry verbose conf w).1 = [] ∨
     scope_marks (tags_to_atlas isfile srcdir environment retry verbose conf w).1 = [0] ∨
     scope_marks (tags_to_atlas isfile srcdir environment retry verbose conf w).1 = [0, 1]) ∧
    ((∃ recs, Event.syncColumnTags recs ∈
        (tags_to_atlas isfile srcdir environment retry verbose conf w).1) →
      ex_ok w.tableSync = true) ∧
    (ex_ok w.tableRead = true → ex_ok w.tableSync = true → ex_ok w.columnRead = true →
      scope_marks (tags_to_atlas isfile srcdir environment retry verbose conf w).1 = [0, 1]) := by
  obtain ⟨tr, ts, cr, cs⟩ := w
  by_cases hv : verbose > 0 <;>
    cases tr <;> cases ts <;> cases cr <;> cases cs <;>
      simp [tags_to_atlas, tags_to_atlas_run, hm, hv, scope_marks, ex_ok,
        List.filterMap_append]

/-- Witness for C3 at a concrete all-successful run. -/
theorem c3_tables_before_columns_witness :
    scope_marks (tags_to_atlas all_files "d" "prod" 0 0 conf0 w0).1 = [0, 1] :=
  (c3_tables_before_columns all_files "d" "prod" 0 0 conf0 w0 (by rfl)).2.2 rfl rfl rfl

/-- C6: in every run of `tags_to_atlas` whose source files exist and in which
some step raises (a `SyncError` or `IOError` with message `m`), the run exits
with a single `ClickException` whose message is `m` followed by
` Tag sync not complete, fix errors and re-run.`, and no other exception is
raised. -/
theorem c6_sync_error_click (isfile : String → Bool) (srcdir environment : String)
    (retry verbose : Nat) (conf : Config) (w : SyncWorld) (m : String)
    (hm : missing_files isfile
      [srcdir ++ "/table_tags.csv", srcdir ++ "/column_tags.csv"] = [])
    (he : first_error w = some m) :
    (tags_to_atlas isfile srcdir environment retry verbose conf w).2 =
      ExitStatus.clickError (click_msg m) ∧
    Event.raiseClick (click_msg m) ∈
      (tags_to_atlas isfile srcdir environment retry verbose conf w).1 ∧
    (∀ m2, Event.raiseClick m2 ∈
        (tags_to_atlas isfile srcdir environment retry verbose conf w).1 →
      m2 = click_msg m) := by
  obtain ⟨tr, ts, cr, cs⟩ := w
  by_cases hv : verbose > 0 <;>
    cases tr <;> cases ts <;> cases cr <;> cases cs <;>
      simp [first_error] at he <;>
        simp [tags_to_atlas, tags_to_atlas_run, hm, hv, he]

/-- A concrete run whose table-scope sync raises with message `boom`. -/
def w_err : SyncWorld :=
  { tableRead := .ok [rec0], tableSync := .error "boom", columnRead := .ok [rec0],
    columnSync := .ok () }

/-- Witness for C6 at a concrete failing run. -/
theorem c6_sync_error_click_witness :
    (tags_to_atlas all_files "d" "prod" 0 0 conf0 w_err).2 =
      ExitStatus.clickError (click_msg "boom") :=
  (c6_sync_error_click all_files "d" "prod" 0 0 conf0 w_err "boom" (by rfl) (by rfl)).1

lemma mem_ite_singleton {c : Prop} [Decidable c] {x y : ReportItem} :
    x ∈ (if c then ([] : List ReportItem) else [y]) ↔ ¬c ∧ x = y := by
  split <;> simp [*]

lemma mem_tag_diff_items {mkSrc mkAtlas : String → Finset String → ReportItem}
    {diffs : List (String × Finset String × Finset String)} {x : ReportItem}
    (hx : x ∈ tag_diff_items mkSrc mkAtlas diffs) :
    ∃ d a, x = mkSrc d a ∨ x = mkAtlas d a := by
  induction diffs with
  | nil => simp [tag_diff_items, concat_map] at hx
  | cons y ys ih =>
    simp only [tag_diff_items, concat_map, List.mem_append] at hx
    rcases hx with (h | h) | h
    · rw [mem_ite_singleton] at h
      exact ⟨y.1, y.2.1, Or.inl h.2⟩
    · rw [mem_ite_singleton] at h
      exact ⟨y.1, y.2.2, Or.inr h.2⟩
    · exact ih h

lemma reports_of_map_report (l : List ReportItem) :
    reports_of (l.map Event.report) = l := by
  induction l with
  | nil => rfl
  | cons x xs ih => simpa [reports_of, List.filterMap_cons] using ih

lemma audit_eq (isfile : String → Bool) (srcdir environment : String)
    (conf : Config) (aw : AuditWorld) (tbl col : List Record)
    (hm : missing_files isfile
      [srcdir ++ "/table_tags.csv", srcdir ++ "/column_tags.csv"] = [])
    (ht : aw.tableRead = Except.ok tbl) (hc : aw.columnRead = Except.ok col) :
    audit isfile srcdir environment conf aw =
      (Event.mkAtlasClient conf.atlas_api_url :: Event.mkSyncClientDefault ::
        (audit_reports (add_environment tbl environment) (add_environment col environment)
          aw.atlas_tags aw.full_tables_atlas aw.full_columns_atlas).map Event.report,
       ExitStatus.ok) := by
  simp [audit, audit_run, hm, ht, hc]

lemma reports_of_audit (isfile : String → Bool) (srcdir environment : String)
    (conf : Config) (aw : AuditWorld) (tbl col : List Record)
    (hm : missing_files isfile
      [srcdir ++ "/table_tags.csv", srcdir ++ "/column_tags.csv"] = [])
    (ht : aw.tableRead = Except.ok tbl) (hc : aw.columnRead = Except.ok col) :
    reports_of (audit isfile srcdir environment conf aw).1 =
      audit_reports (add_environment tbl environment) (add_environment col environment)
        aw.atlas_tags aw.full_tables_atlas aw.full_columns_atlas := by
  rw [audit_eq isfile srcdir environment conf aw tbl col hm ht hc]
  simp only [reports_of, List.filterMap_cons]
  exact reports_of_map_report _

lemma columnsOnlySrc_mem_audit_reports
    {st sc : List Record} {atags : Finset String}
    {fta fca : List (String × Finset String)} {s : Finset String} :
    ReportItem.columnsOnlySrc s ∈ audit_reports st sc atags fta fca ↔
      s = (columns_from_src sc).toFinset \ (fca.map Prod.fst).toFinset ∧
      (columns_from_src sc).toFinset \ (fca.map Prod.fst).toFinset ≠ ∅ := by
  constructor
  · intro hx
    simp only [audit_reports, List.mem_append, mem_ite_singleton] at hx
    rcases hx with ((((h | h) | h) | h) | h) | h
    · exact absurd h.2 (by simp)
    · exact absurd h.2 (by simp)
    · exact absurd h.2 (by simp)
    · exact ⟨(ReportItem.columnsOnlySrc.injEq _ _).mp h.2, h.1⟩
    · obtain ⟨d, a, h | h⟩ := mem_tag_diff_items h <;> exact absurd h (by simp)
    · obtain ⟨d, a, h | h⟩ := mem_tag_diff_items h <;> exact absurd h (by simp)
  · rintro ⟨rfl, hne⟩
    simp [audit_reports, List.mem_append, mem_ite_singleton, hne]

lemma tagsMissingInAtlas_mem_audit_reports
    {st sc : List Record} {atags : Finset String}
    {fta fca : List (String × Finset String)} {s : Finset String} :
    ReportItem.tagsMissingInAtlas s ∈ audit_reports st sc atags fta fca ↔
      s = (tags_from_src st ∪ tags_from_src sc) \ atags ∧
      (tags_from_src st ∪ tags_from_src sc) \ atags ≠ ∅ := by
  constructor
  · intro hx
    simp only [audit_reports, List.mem_append, mem_ite_singleton] at hx
    rcases hx with ((((h | h) | h) | h) | h) | h
    · exact ⟨(ReportItem.tagsMissingInAtlas.injEq _ _).mp h.2, h.1⟩
    · exact absurd h.2 (by simp)
    · exact absurd h.2 (by simp)
    · exact absurd h.2 (by simp)
    · obtain ⟨d, a, h | h⟩ := mem_tag_diff_items h <;> exact absurd h (by simp)
    · obtain ⟨d, a, h | h⟩ := mem_tag_diff_items h <;> exact absurd h (by simp)
  · rintro ⟨rfl, hne⟩
    simp [audit_reports, List.mem_append, mem_ite_singleton, hne]

/-- C2: in every audit run whose source files exist and whose reads succeed,
the only column-presence report is the set difference source-columns minus
catalog-columns, and no column known to the catalog — in particular no
catalog-only column — ever appears in a reported column set. -/
theorem c2_column_asymmetry (isfile : String → Bool) (srcdir environment : String)
    (conf : Config) (aw : AuditWorld) (tbl col : List Record) (s : Finset String)
    (hm : missing_files isfile
      [srcdir ++ "/table_tags.csv", srcdir ++ "/column_tags.csv"] = [])
    (ht : aw.tableRead = Except.ok tbl) (hc : aw.columnRead = Except.ok col) :
    (ReportItem.columnsOnlySrc s ∈ reports_of (audit isfile srcdir environment conf aw).1 ↔
      s = (columns_from_src (add_environment col environment)).toFinset \
            (aw.full_columns_atlas.map Prod.fst).toFinset ∧
      (columns_from_src (add_environment col environment)).toFinset \
            (aw.full_columns_atlas.map Prod.fst).toFinset ≠ ∅) ∧
    (∀ c s2, ReportItem.columnsOnlySrc s2 ∈
        reports_of (audit isfile srcdir environment conf aw).1 →
      c ∈ (aw.full_columns_atlas.map Prod.fst).toFinset → c ∉ s2) := by
  rw [reports_of_audit isfile srcdir environment conf aw tbl col hm ht hc]
  refine ⟨columnsOnlySrc_mem_audit_reports, fun c s2 h2 hc2 => ?_⟩
  rw [columnsOnlySrc_mem_audit_reports] at h2
  rw [h2.1]
  simp [hc2]

/-- Witness for C2: a concrete audit where the catalog has an extra column. -/
theorem c2_column_asymmetry_witness :
    (ReportItem.columnsOnlySrc {"s.t."} ∈ reports_of
      (audit all_files "d" "prod" conf0
        { tableRead := .ok [rec0], columnRead := .ok [rec0],
          atlas_tags := {"pii"}, full_tables_atlas := [("s.t", {"pii"})],
          full_columns_atlas := [("s.t.c", {"pii"})] }).1) ∧
    "s.t.c" ∉ ({"s.t."} : Finset String) := by
  have h := c2_column_asymmetry all_files "d" "prod" conf0
    { tableRead := .ok [rec0], columnRead := .ok [rec0],
      atlas_tags := {"pii"}, full_tables_atlas := [("s.t", {"pii"})],
      full_columns_atlas := [("s.t.c", {"pii"})] }
    [rec0] [rec0] {"s.t."} (by rfl) (by rfl) (by rfl)
  exact ⟨h.1.mpr (by decide), h.2 "s.t.c" {"s.t."} (h.1.mpr (by decide)) (by decide)⟩

/-- C4: in every audit run whose source files exist and whose reads succeed,
the unknown-tag report is exactly the union of the stamped table-file and
column-file tag universes minus the catalog tag universe, and it is reported
precisely when that difference is non-empty. -/
theorem c4_unknown_tags (isfile : String → Bool) (srcdir environment : String)
    (conf : Config) (aw : AuditWorld) (tbl col : List Record) (s : Finset String)
    (hm : missing_files isfile
      [srcdir ++ "/table_tags.csv", srcdir ++ "/column_tags.csv"] = [])
    (ht : aw.tableRead = Except.ok tbl) (hc : aw.columnRead = Except.ok col) :
    ReportItem.tagsMissingInAtlas s ∈ reports_of (audit isfile srcdir environment conf aw).1 ↔
      s = (tags_from_src (add_environment tbl environment) ∪
            tags_from_src (add_environment col environment)) \ aw.atlas_tags ∧
      (tags_from_src (add_environment tbl environment) ∪
            tags_from_src (add_environment col environment)) \ aw.atlas_tags ≠ ∅ := by
  rw [reports_of_audit isfile srcdir environment conf aw tbl col hm ht hc]
  exact tagsMissingInAtlas_mem_audit_reports

/-- Witness for C4: a concrete audit with one tag unknown to the catalog. -/
theorem c4_unknown_tags_witness :
    ReportItem.tagsMissingInAtlas {"prod"} ∈ reports_of
      (audit all_files "d" "prod" conf0
        { tableRead := .ok [rec0], columnRead := .ok [rec0],
          atlas_tags := {"pii"}, full_tables_atlas := [("s.t", {"pii"})],
          full_columns_atlas := [] }).1 :=
  (c4_unknown_tags all_files "d" "prod" conf0
    { tableRead := .ok [rec0], columnRead := .ok [rec0],
      atlas_tags := {"pii"}, full_tables_atlas := [("s.t", {"pii"})],
      full_columns_atlas := [] }
    [rec0] [rec0] {"prod"} (by rfl) (by rfl) (by rfl)).mpr (by decide)

/-- C7: no audit run raises because of data differences — every run either
exits normally (all differences emitted as report lines) or exits with a
`ClickException` whose message is exactly the message of a failed file read
(an `IOError`). -/
theorem c7_audit_never_raises_on_diffs (isfile : String → Bool)
    (srcdir environment : String) (conf : Config) (aw : AuditWorld) :
    (audit isfile srcdir environment conf aw).2 = ExitStatus.ok ∨
    ∃ m, (audit isfile srcdir environment conf aw).2 = ExitStatus.clickError m ∧
      (aw.tableRead = Except.error m ∨ aw.columnRead = Except.error m) := by
  obtain ⟨tr, cr, atags, fta, fca⟩ := aw
  by_cases hmiss : (missing_files isfile
      [srcdir ++ "/table_tags.csv", srcdir ++ "/column_tags.csv"]).length ≠ 0
  · left
    simp [audit, hmiss]
  · cases tr with
    | error m =>
      right
      exact ⟨m, by simp [audit, audit_run, hmiss], Or.inl rfl⟩
    | ok tbl =>
      cases cr with
      | error m =>
        right
        exact ⟨m, by simp [audit, audit_run, hmiss], Or.inr rfl⟩
      | ok col =>
        left
        simp [audit, audit_run, hmiss]

/-- C8: the run's environment tag is stamped onto every record before any sync
or diff computation — every record handed to a sync call of `tags_to_atlas`
carries the environment tag, the audit reports are computed from the
environment-stamped data, and stamping puts the tag into every record's tag
set. -/
theorem c8_environment_first (isfile : String → Bool) (srcdir environment : String)
    (retry verbose : Nat) (conf : Config) (w : SyncWorld) (aw : AuditWorld)
    (recs tbl col : List Record)
    (hm : missing_files isfile
      [srcdir ++ "/table_tags.csv", srcdir ++ "/column_tags.csv"] = [])
    (hs : Event.syncTableTags recs ∈
        (tags_to_atlas isfile srcdir environment retry verbose conf w).1 ∨
      Event.syncColumnTags recs ∈
        (tags_to_atlas isfile srcdir environment retry verbose conf w).1)
    (ht : aw.tableRead = Except.ok tbl) (hc : aw.columnRead = Except.ok col) :
    (∀ r ∈ recs, environment ∈ r.tags) ∧
    reports_of (audit isfile srcdir environment conf aw).1 =
      audit_reports (add_environment tbl environment) (add_environment col environment)
        aw.atlas_tags aw.full_tables_atlas aw.full_columns_atlas ∧
    (∀ r ∈ add_environment tbl environment, environment ∈ r.tags) ∧
    (∀ r ∈ add_environment col environment, environment ∈ r.tags) := by
  refine ⟨?_, reports_of_audit isfile srcdir environment conf aw tbl col hm ht hc,
    fun r hr => mem_add_environment hr, fun r hr => mem_add_environment hr⟩
  intro r hr
  obtain ⟨tr, ts, cr, cs⟩ := w
  by_cases hv : verbose > 0 <;>
    cases tr <;> cases ts <;> cases cr <;> cases cs <;>
      simp [tags_to_atlas, tags_to_atlas_run, hm, hv] at hs
  all_goals try rcases hs with rfl | rfl
  all_goals exact mem_add_environment hr

/-- Witness for C8 at a concrete run. -/
theorem c8_environment_first_witness :
    ∃ recs, Event.syncTableTags recs ∈ (tags_to_atlas all_files "d" "prod" 0 0 conf0 w0).1 ∧
      ∀ r ∈ recs, "prod" ∈ r.tags := by
  refine ⟨add_environment [rec0] "prod", ?_, ?_⟩
  · simp [tags_to_atlas, tags_to_atlas_run, w0, all_files, missing_files]
  · exact (c8_environment_first all_files "d" "prod" 0 0 conf0 w0
      { tableRead := .ok [rec0], columnRead := .ok [rec0], atlas_tags := ∅,
        full_tables_atlas := [], full_columns_atlas := [] }
      (add_environment [rec0] "prod") [rec0] [rec0] (by rfl)
      (Or.inl (by simp [tags_to_atlas, tags_to_atlas_run, w0, all_files, missing_files]))
      (by rfl) (by rfl)).1

/-- C5: whenever a required source file is missing, each of the three commands
prints the missing-file message and the exiting notice, returns exit code 0,
and its trace holds no remote-client construction and no remote call. -/
theorem c5_missing_files_early_exit (isfile : String → Bool)
    (srcdir environment project_name : String) (retry verbose : Nat) (conf : Config)
    (dryrun : Bool) (w : SyncWorld) (aw : AuditWorld) (tables columns : List Record)
    (policy_commands : List String)
    (apply_commands : List String → List (String × CtxVal) → List String) :
    (missing_files isfile [srcdir ++ "/table_tags.csv", srcdir ++ "/column_tags.csv"] ≠ [] →
      tags_to_atlas isfile srcdir environment retry verbose conf w =
        ([Event.printLine (missing_files_message (missing_files isfile
            [srcdir ++ "/table_tags.csv", srcdir ++ "/column_tags.csv"])),
          Event.printLine "Will not run, exiting!"], ExitStatus.ok) ∧
      ∀ e ∈ (tags_to_atlas isfile srcdir environment retry verbose conf w).1,
        is_remote_event e = false) ∧
    (missing_files isfile [srcdir ++ "/table_tags.csv", srcdir ++ "/column_tags.csv"] ≠ [] →
      audit isfile srcdir environment conf aw =
        ([Event.printLine (missing_files_message (missing_files isfile
            [srcdir ++ "/table_tags.csv", srcdir ++ "/column_tags.csv"])),
          Event.printLine "Will not run, exiting!"], ExitStatus.ok) ∧
      ∀ e ∈ (audit isfile srcdir environment conf aw).1, is_remote_event e = false) ∧
    (missing_files isfile [srcdir ++ "/table_tags.csv", srcdir ++ "/column_tags.csv",
        srcdir ++ "/ranger_policies.json"] ≠ [] →
      rules_to_ranger_cmd isfile srcdir project_name environment conf verbose dryrun
          tables columns policy_commands apply_commands =
        ([Event.printLine (missing_files_message (missing_files isfile
            [srcdir ++ "/table_tags.csv", srcdir ++ "/column_tags.csv",
             srcdir ++ "/ranger_policies.json"])),
          Event.printLine "Will not run, exiting!"], ExitStatus.ok) ∧
      ∀ e ∈ (rules_to_ranger_cmd isfile srcdir project_name environment conf verbose dryrun
          tables columns policy_commands apply_commands).1, is_remote_event e = false) := by
  refine ⟨fun h => ?_, fun h => ?_, fun h => ?_⟩
  · have hlen : (missing_files isfile
        [srcdir ++ "/table_tags.csv", srcdir ++ "/column_tags.csv"]).length ≠ 0 :=
      fun h0 => h (List.length_eq_zero.mp h0)
    refine ⟨by simp [tags_to_atlas, hlen], fun e he => ?_⟩
    simp [tags_to_atlas, hlen] at he
    rcases he with rfl | rfl <;> rfl
  · have hlen : (missing_files isfile
        [srcdir ++ "/table_tags.csv", srcdir ++ "/column_tags.csv"]).length ≠ 0 :=
      fun h0 => h (List.length_eq_zero.mp h0)
    refine ⟨by simp [audit, hlen], fun e he => ?_⟩
    simp [audit, hlen] at he
    rcases he with rfl | rfl <;> rfl
  · have hlen : (missing_files isfile [srcdir ++ "/table_tags.csv",
        srcdir ++ "/column_tags.csv", srcdir ++ "/ranger_policies.json"]).length ≠ 0 :=
      fun h0 => h (List.length_eq_zero.mp h0)
    refine ⟨by simp [rules_to_ranger_cmd, hlen], fun e he => ?_⟩
    simp [rules_to_ranger_cmd, hlen] at he
    rcases he with rfl | rfl <;> rfl

/-- A file system in which no path exists. -/
def no_files : String → Bool := fun _ => false

/-- A concrete audit oracle world. -/
def aw0 : AuditWorld :=
  { tableRead := .ok [rec0], columnRead := .ok [rec0], atlas_tags := ∅,
    full_tables_atlas := [], full_columns_atlas := [] }

/-- Witness for C5: with no source files present, all three commands exit 0. -/
theorem c5_missing_files_early_exit_witness :
    (tags_to_atlas no_files "d" "prod" 0 0 conf0 w0).2 = ExitStatus.ok ∧
    (audit no_files "d" "prod" conf0 aw0).2 = ExitStatus.ok ∧
    (rules_to_ranger_cmd no_files "d" "p" "prod" conf0 0 false [] [] []
      (fun _ _ => [])).2 = ExitStatus.ok := by
  have h := c5_missing_files_early_exit no_files "d" "prod" "p" 0 0 conf0 false w0 aw0
    [] [] [] (fun _ _ => [])
  refine ⟨?_, ?_, ?_⟩
  · rw [(h.1 (by decide)).1]
  · rw [(h.2.1 (by decide)).1]
  · rw [(h.2.2 (by decide)).1]

/-- C9: in every run of `rules_to_ranger_cmd` whose source files exist, the
policy syncer is called exactly once, with the two owned names
`project_name ++ "_" ++ environment` then `"load_etl_"`, in that order, on the
full sequence of expanded policies. -/
theorem c9_sync_policies_call (isfile : String → Bool)
    (srcdir project_name environment : String) (conf : Config) (verbose : Nat)
    (dryrun : Bool) (tables columns : List Record) (policy_commands : List String)
    (apply_commands : List String → List (String × CtxVal) → List String)
    (hm : missing_files isfile [srcdir ++ "/table_tags.csv",
      srcdir ++ "/column_tags.csv", srcdir ++ "/ranger_policies.json"] = []) :
    sync_policy_calls (rules_to_ranger_cmd isfile srcdir project_name environment conf
        verbose dryrun tables columns policy_commands apply_commands).1 =
      [([project_name ++ "_" ++ environment, "load_etl_"],
        apply_commands policy_commands
          (context_writes project_name environment tables columns conf))] := by
  simp [rules_to_ranger_cmd, rules_to_ranger_run, hm, sync_policy_calls]

/-- Witness for C9 at a concrete run. -/
theorem c9_sync_policies_call_witness :
    sync_policy_calls (rules_to_ranger_cmd all_files "d" "p" "prod" conf0 0 false
        [] [] ["cmd"] (fun _ _ => ["pol"])).1 =
      [(["p_prod", "load_etl_"], ["pol"])] := by
  have h := c9_sync_policies_call all_files "d" "p" "prod" conf0 0 false [] [] ["cmd"]
    (fun _ _ => ["pol"]) (by rfl)
  simpa using h

lemma lookup_foldl_orElse {β : Type} (k : String) (l : List (String × β)) :
    ∀ init : Option β,
      l.foldl (fun acc kv => if kv.1 = k then some kv.2 else acc) init =
        (l.foldl (fun acc kv => if kv.1 = k then some kv.2 else acc) none).orElse
          (fun _ => init) := by
  induction l with
  | nil => intro init; rfl
  | cons y ys ih =>
    intro init
    simp only [List.foldl_cons]
    rw [ih (if y.1 = k then some y.2 else init),
        ih (if y.1 = k then some y.2 else none)]
    cases hys : ys.foldl (fun acc kv => if kv.1 = k then some kv.2 else acc) none with
    | some w => rfl
    | none =>
      by_cases hk : y.1 = k <;> simp [hk, Option.orElse]

lemma lookup_foldl_map_str (k : String) (vars : List (String × String)) :
    (vars.map (fun p => (p.1, CtxVal.str p.2))).foldl
        (fun acc kv => if kv.1 = k then some kv.2 else acc) none =
      (vars.foldl (fun acc kv => if kv.1 = k then some kv.2 else acc) none).map
        CtxVal.str := by
  induction vars with
  | nil => rfl
  | cons y ys ih =>
    simp only [List.map_cons, List.foldl_cons]
    rw [lookup_foldl_orElse k (ys.map (fun p => (p.1, CtxVal.str p.2))),
        lookup_foldl_orElse k ys, ih]
    cases hys : ys.foldl (fun acc kv => if kv.1 = k then some kv.2 else acc) none with
    | some w => rfl
    | none => by_cases hk : y.1 = k <;> simp [hk, Option.orElse]

/-- C10: in every `rules_to_ranger_cmd` context, the config-declared variables
are written after the four run-derived keys, so a config variable named like a
run-derived key silently overwrites the run-derived value: the context lookup
returns the (last) config-supplied value. -/
theorem c10_config_var_overwrites (project_name environment : String)
    (tables columns : List Record) (conf : Config) (name v : String)
    (_hname : name = "project_name" ∨ name = "environment" ∨ name = "tables" ∨
      name = "table_columns")
    (hv : last_value conf.vars name = some v) :
    dict_lookup (context_writes project_name environment tables columns conf) name =
      some (CtxVal.str v) := by
  unfold dict_lookup context_writes
  rw [List.foldl_append, lookup_foldl_orElse name (conf.vars.map (fun p => (p.1, CtxVal.str p.2))),
      lookup_foldl_map_str]
  have : conf.vars.foldl (fun acc kv => if kv.1 = name then some kv.2 else acc) none = some v := hv
  rw [this]
  rfl

/-- A config declaring a variable that collides with the run-derived key
`environment`. -/
def conf_collide : Config :=
  { atlas_api_url := "a", ranger_api_url := "r", retries := none,
    vars := [("environment", "overridden")] }

/-- Witness for C10: the colliding config variable wins the lookup. -/
theorem c10_config_var_overwrites_witness :
    dict_lookup (context_writes "p" "prod" [] [] conf_collide) "environment" =
      some (CtxVal.str "overridden") :=
  c10_config_var_overwrites "p" "prod" [] [] conf_collide "environment" "overridden"
    (Or.inr (Or.inl rfl)) (by rfl)

end Policytool
